import Mathlib

/-!
Verification of the HelpingAI python client library: a shallow embedding of
the tool-format normalizer, the chat-completion request builder, the tool
dispatcher, batch tool execution, the web-search built-in tool, the
message-conversion helper, the client tool-configuration state, and the
streaming reasoning-block filter, together with theorems checking the
specification claims against these definitions.
-/

namespace HelpingAI

/-- Python-like values as they appear in this client: JSON-style data plus
Python sets (which occur as a common caller mistake handled by
`HAI._process_arguments`). -/
inductive PyVal where
  | pyNone
  | pyBool (b : Bool)
  | pyInt (n : Int)
  | pyStr (s : String)
  | pyList (xs : List PyVal)
  | pyDict (entries : List (String × PyVal))
  | pySet (xs : List PyVal)

/-- Python truthiness for the values above (used by `if converted_tools` and
`if msg_dict[...]` style checks in the source). -/
def PyVal.truthy : PyVal → Bool
  | .pyNone => false
  | .pyBool b => b
  | .pyInt n => decide (n ≠ 0)
  | .pyStr s => decide (s ≠ "")
  | .pyList xs => !xs.isEmpty
  | .pyDict d => !d.isEmpty
  | .pySet xs => !xs.isEmpty

/-- Rendering of `type(v)` for the Python values above, as it appears
interpolated into error messages such as
`f"... got {type(parsed)}"`. -/
def PyVal.typeName : PyVal → String
  | .pyNone => "<class \x27NoneType\x27>"
  | .pyBool _ => "<class \x27bool\x27>"
  | .pyInt _ => "<class \x27int\x27>"
  | .pyStr _ => "<class \x27str\x27>"
  | .pyList _ => "<class \x27list\x27>"
  | .pyDict _ => "<class \x27dict\x27>"
  | .pySet _ => "<class \x27set\x27>"

mutual
/-- A simple rendering of a Python value, standing in for the `str()`
interpolation of `{arguments}` into dispatcher error messages. -/
def PyVal.render : PyVal → String
  | .pyNone => "None"
  | .pyBool b => if b then "True" else "False"
  | .pyInt n => toString n
  | .pyStr s => "\x27" ++ s ++ "\x27"
  | .pyList xs => "[" ++ PyVal.renderList xs ++ "]"
  | .pyDict d => "\x7b" ++ PyVal.renderDict d ++ "\x7d"
  | .pySet xs => "\x7b" ++ PyVal.renderList xs ++ "\x7d"

def PyVal.renderList : List PyVal → String
  | [] => ""
  | [x] => PyVal.render x
  | x :: xs => PyVal.render x ++ ", " ++ PyVal.renderList xs

def PyVal.renderDict : List (String × PyVal) → String
  | [] => ""
  | [(k, v)] => "\x27" ++ k ++ "\x27: " ++ PyVal.render v
  | (k, v) :: d => "\x27" ++ k ++ "\x27: " ++ PyVal.render v ++ ", " ++ PyVal.renderDict d
end

/-- Python `str.strip()`: drop whitespace from both ends. -/
def pyStrip (s : String) : String :=
  ⟨(((s.data.dropWhile Char.isWhitespace).reverse.dropWhile Char.isWhitespace).reverse)⟩

/-- Python `str.split(sep)` for a one-character separator: split at every
occurrence, keeping empty pieces; the empty string yields `[""]`. -/
def pySplitChar (sep : Char) (s : String) : List String :=
  (go s.data).map fun cs => ⟨cs⟩
where
  go : List Char → List (List Char)
    | [] => [[]]
    | c :: cs =>
      match go cs with
      | [] => [[]]
      | h :: t => if c = sep then [] :: h :: t else (c :: h) :: t

/-- Python `str.replace(old, new)` for one-character old and new. -/
def pyReplaceChar (old new : Char) (s : String) : String :=
  ⟨s.data.map fun c => if c = old then new else c⟩

/-- Metadata of a locally declared tool descriptor (`Fn` in
`HelpingAI/tools/core.py`, a module whose data shape is fixed by its uses in
`compatibility.py`): name, description and JSON-schema parameters. -/
structure Fn where
  name : String
  description : String
  parameters : PyVal

/-- One element of a `tools` list handed to the normalizer: a Python dict, an
`Fn` object (recognized in the source by `hasattr(item, "to_tool_format")`),
a bare string, or any other object (carrying its Python type name; such an
object has no `to_tool_format` attribute). -/
inductive ToolItem where
  | dictItem (d : List (String × PyVal))
  | fnItem (fn : Fn)
  | strItem (s : String)
  | otherItem (tyName : String)

/-- The whole `tools` argument of `ensure_openai_format` /
`ChatCompletions.create`: `None`, a string (category name), a list, or a
value of any other Python type (carrying the type name used in the
`Unsupported tools format` error). -/
inductive ToolsInput where
  | noneInput
  | strInput (s : String)
  | listInput (items : List ToolItem)
  | otherInput (tyName : String)

/-- Rendering of `type(tools)` for the error message raised by
`ensure_openai_format`. -/
def ToolsInput.typeName : ToolsInput → String
  | .noneInput => "<class \x27NoneType\x27>"
  | .strInput _ => "<class \x27str\x27>"
  | .listInput _ => "<class \x27list\x27>"
  | .otherInput ty => "<class \x27" ++ ty ++ "\x27>"

/-- The message of the `ValueError` raised at the end of
`ensure_openai_format` (`tools/compatibility.py`, lines 403-404). -/
def unsupported_tools_message (t : ToolsInput) : String :=
  "Unsupported tools format: " ++ t.typeName ++
    ". Expected None, str, List[Dict], or List[Fn]."

/-- `_convert_fns_to_tools` (`tools/compatibility.py`, lines 335-358) applied
to actual `Fn` objects: build the OpenAI wire dict for each one. -/
def convert_fns_to_tools (fns : List Fn) : List ToolItem :=
  fns.map fun fn =>
    .dictItem [("type", .pyStr "function"),
      ("function", .pyDict [("name", .pyStr fn.name),
        ("description", .pyStr fn.description),
        ("parameters", fn.parameters)])]

/-- Python type name of a tools-list element, used when rendering the
`AttributeError` that `_convert_fns_to_tools` hits on a non-`Fn` element. -/
def ToolItem.typeName : ToolItem → String
  | .dictItem _ => "dict"
  | .fnItem _ => "Fn"
  | .strItem _ => "str"
  | .otherItem ty => ty

/-- `_convert_fns_to_tools` as reached from the list branch of
`ensure_openai_format`, where only the first element was probed: iterating a
mixed list raises an `AttributeError` (`fn.name`) at the first non-`Fn`
element. -/
def convert_fns_to_tools_dyn (items : List ToolItem) : Except String (List ToolItem) :=
  items.mapM fun it =>
    match it with
    | .fnItem fn =>
        .ok (.dictItem [("type", .pyStr "function"),
          ("function", .pyDict [("name", .pyStr fn.name),
            ("description", .pyStr fn.description),
            ("parameters", fn.parameters)])])
    | other =>
        .error ("AttributeError: \x27" ++ other.typeName ++
          "\x27 object has no attribute \x27name\x27")

/-- `ensure_openai_format` (`tools/compatibility.py`, lines 361-404).
`get_tools` stands for `HelpingAI.tools.core.get_tools`, the registry bulk
lookup (its module is an external collaborator of this file; the call site
passes `names=[tools] if tools else None`). Errors are the `ValueError` /
`AttributeError` messages the Python code raises. -/
def ensure_openai_format (get_tools : Option (List String) → List Fn) :
    ToolsInput → Except String (Option (List ToolItem))
  | .noneInput => .ok none
  | .strInput s =>
      .ok (some (convert_fns_to_tools
        (get_tools (if s = "" then none else some [s]))))
  | .listInput items =>
      match items with
      | [] => .ok (some [])
      | first :: _ =>
        match first with
        | .dictItem d =>
            if (d.lookup "type").isSome then .ok (some items)
            else .error (unsupported_tools_message (.listInput items))
        | .fnItem _ => (convert_fns_to_tools_dyn items).map some
        | .strItem _ => .error (unsupported_tools_message (.listInput items))
        | .otherItem _ => .error (unsupported_tools_message (.listInput items))
  | .otherInput ty => .error (unsupported_tools_message (.otherInput ty))

/-- Substring test (`"pat" in e` in Python), used by the warning selection in
`_convert_tools_parameter`. -/
def strInfix (pat s : String) : Bool :=
  decide (pat.toList <:+: s.toList)

/-- The warning message `_convert_tools_parameter` emits for a conversion
error (`client.py`, lines 402-447), selected by substring tests on the error
text. -/
def warn_for_error (e : String) : String :=
  if strInfix "Unknown built-in tool" e then
    "Tool conversion failed: " ++ e ++
      ". Available built-in tools: code_interpreter, web_search. For custom tools, use OpenAI tool format. Using legacy behavior."
  else if strInfix "Unsupported tool item type" e then
    "Tool conversion failed: " ++ e ++
      ". Tools must be strings (built-in tool names), dicts (OpenAI format), or MCP server configs. Using legacy behavior."
  else if strInfix "Unsupported tools format" e then
    "Tool conversion failed: " ++ e ++
      ". Supported formats: None, string (category), List[Dict] (OpenAI format), List[str] (built-in tools), or List[Fn]. Using legacy behavior."
  else if strInfix "Failed to initialize MCP tools" e then
    if strInfix "uvx" e then
      "Tool conversion failed: " ++ e ++ ". Install uvx with: pip install uvx. Using legacy behavior."
    else if strInfix "npx" e then
      "Tool conversion failed: " ++ e ++ ". Install Node.js and npm to use npx commands. Using legacy behavior."
    else if strInfix "fileno" e then
      "Tool conversion failed: " ++ e ++
        ". This may be due to a subprocess issue. Check MCP server configuration. Using legacy behavior."
    else
      "Tool conversion failed: " ++ e ++ ". Using legacy behavior."
  else
    "Tool conversion failed: " ++ e ++ ". Using legacy behavior."

/-- Python equality test `v == "somestring"` on an optional looked-up value,
used by the dict filter in the legacy fallback. -/
def optIsStrVal (v : Option PyVal) (t : String) : Bool :=
  match v with
  | some (.pyStr s) => s = t
  | _ => false

/-- The legacy fallback `_convert_tools_parameter` builds after catching a
conversion error (`client.py`, lines 449-470): keep strings as synthesized
built-in wire dicts, keep dicts with `type == "function"`, drop everything
else; an empty filtered list (or a non-list input) becomes `None`. -/
def legacy_fallback : ToolsInput → Option (List ToolItem)
  | .listInput items =>
      let filtered := items.filterMap fun it =>
        match it with
        | .strItem s =>
            some (.dictItem [("type", .pyStr "function"),
              ("function", .pyDict [("name", .pyStr s),
                ("description", .pyStr ("Built-in tool: " ++ s)),
                ("parameters", .pyDict [("type", .pyStr "object"),
                  ("properties", .pyDict []),
                  ("required", .pyList [])])])])
        | .dictItem d =>
            if optIsStrVal (d.lookup "type") "function" then some (.dictItem d)
            else none
        | _ => none
      if filtered.isEmpty then none else some filtered
  | _ => none

/-- `ChatCompletions._convert_tools_parameter` (`client.py`, lines 369-470):
returns the converted tools together with the warning emitted, if any. A
`None` input returns early; a conversion error from `ensure_openai_format`
is caught, a warning is selected for it, and the legacy fallback result is
returned in its place — the error never propagates. -/
def convert_tools_parameter (get_tools : Option (List String) → List Fn)
    (tools : ToolsInput) : Option (List ToolItem) × Option String :=
  match tools with
  | .noneInput => (none, none)
  | t =>
    match ensure_openai_format get_tools t with
    | .ok r => (r, none)
    | .error e => (legacy_fallback t, some (warn_for_error e))

/-! ## Request body assembly (`ChatCompletions.create`) -/

/-- A value stored in the outgoing request body: either an ordinary Python
value or the converted tools list (kept apart so the body can carry `Fn`
objects a fallback may have preserved). -/
inductive BodyVal where
  | py (v : PyVal)
  | toolsVal (ts : List ToolItem)

/-- The optional sampling parameters of `ChatCompletions.create`
(`client.py`, lines 280-292): `none` models a Python `None` argument. -/
structure CreateParams where
  temperature : Option PyVal
  max_tokens : Option PyVal
  top_p : Option PyVal
  frequency_penalty : Option PyVal
  presence_penalty : Option PyVal
  stop : Option PyVal
  user : Option PyVal
  n : Option PyVal
  logprobs : Option PyVal
  top_logprobs : Option PyVal
  response_format : Option PyVal
  seed : Option PyVal

/-- A `CreateParams` with every optional sampling parameter left at its
`None` default. -/
def CreateParams.allNone : CreateParams :=
  ⟨none, none, none, none, none, none, none, none, none, none, none, none⟩

/-- Python truthiness of the converted tools value (`if converted_tools`):
`None` and the empty list are falsy. -/
def toolsTruthy : Option (List ToolItem) → Bool
  | some (_ :: _) => true
  | _ => false

/-- The `json_data` request body built by `ChatCompletions.create`
(`client.py`, lines 326-355): the base keys, then every entry of
`optional_params` whose value is not `None`. `tool_choice` is replaced by
`None` when `converted_tools` is falsy, and `hideThink` is a plain bool and
hence always kept. -/
def create_json_data (get_tools : Option (List String) → List Fn)
    (model : String) (messages : PyVal) (stream : Bool) (p : CreateParams)
    (tools : ToolsInput) (tool_choice : Option PyVal) (hide_think : Bool) :
    List (String × BodyVal) :=
  let converted_tools := (convert_tools_parameter get_tools tools).1
  let base : List (String × BodyVal) :=
    [("model", .py (.pyStr model)), ("messages", .py messages),
     ("stream", .py (.pyBool stream))]
  let optional_params : List (String × Option BodyVal) :=
    [("temperature", p.temperature.map .py),
     ("max_tokens", p.max_tokens.map .py),
     ("top_p", p.top_p.map .py),
     ("frequency_penalty", p.frequency_penalty.map .py),
     ("presence_penalty", p.presence_penalty.map .py),
     ("stop", p.stop.map .py),
     ("user", p.user.map .py),
     ("n", p.n.map .py),
     ("logprobs", p.logprobs.map .py),
     ("top_logprobs", p.top_logprobs.map .py),
     ("response_format", p.response_format.map .py),
     ("seed", p.seed.map .py),
     ("tools", converted_tools.map .toolsVal),
     ("tool_choice", if toolsTruthy converted_tools then tool_choice.map .py else none),
     ("hideThink", some (.py (.pyBool hide_think)))]
  base ++ optional_params.filterMap fun kv => kv.2.map fun v => (kv.1, v)

/-- The set of keys present in a request body. -/
def bodyKeys (body : List (String × BodyVal)) : List String :=
  body.map Prod.fst

/-! ## Tool dispatch (`HAI.call` and `HAI._process_arguments`) -/

/-- A callable tool as the dispatcher sees it: an `Fn`-like object whose
`call` behaviour (implemented in the external `tools.core` module, schema
validation plus invocation) is carried as an opaque function from the
processed argument dict to a result or a raised-exception message. -/
structure CallableTool where
  name : String
  run : List (String × PyVal) → Except String PyVal

/-- A tool advertised by one MCP client (`client.tools` entries in
`HAI.call`). -/
structure MCPTool where
  name : String
  run : List (String × PyVal) → Except String PyVal

/-- The tool surroundings `HAI.call` consults: the global registry
(`get_registry().get_tool`), the built-in catalog
(`is_builtin_tool` / `get_builtin_tool_class`, with `to_fn()` already
applied), the MCP clients of the cached manager (`client_id` keyed, each
with its advertised tools), and whether `_get_effective_tools_config()`
returned a configuration. -/
structure ToolEnv where
  registry : List (String × CallableTool)
  builtins : List (String × CallableTool)
  mcpClients : List (String × List MCPTool)
  hasEffectiveConfig : Bool

/-- `client_id.split("_")[0]` — the server-name part of an MCP client id. -/
def serverNameOf (clientId : String) : String :=
  (pySplitChar (Char.ofNat 95) clientId).headD clientId

/-- The MCP branch of `HAI.call` (`client.py`, lines 850-869): scan every
client and every advertised tool, matching
`{server_name}-{mcp_tool.name}` against the requested name. -/
def mcpFind (clients : List (String × List MCPTool)) (toolName : String) :
    Option MCPTool :=
  clients.findSome? fun c =>
    c.2.findSome? fun t =>
      if serverNameOf c.1 ++ "-" ++ t.name = toolName then some t else none

/-- The `Tool not found` diagnostic built at the end of `HAI.call`
(`client.py`, lines 874-896). -/
def tool_not_found_message (toolName : String) (hasConfig : Bool) : String :=
  let base := "Tool \x27" ++ toolName ++ "\x27 not found"
  let base :=
    if strInfix "-" toolName && hasConfig then
      base ++ ". Tool \x27" ++ toolName ++
        "\x27 appears to be an MCP tool but MCP servers may not be properly initialized. Check that the MCP server is running and accessible."
    else if strInfix "-" toolName && !hasConfig then
      base ++ ". Tool \x27" ++ toolName ++
        "\x27 appears to be an MCP tool but no tools are configured."
    else if !hasConfig then
      base ++ ". No tools are currently configured."
    else
      base ++ " in registry, built-in tools, or configured MCP tools"
  if !hasConfig then
    base ++ "\n\nTo use tools with client.call(), you have two options:" ++
      "\n1. First call chat.completions.create() with tools, then call client.call():" ++
      "\n   response = client.chat.completions.create(model=\x27gpt-4\x27, messages=[...], tools=[...])" ++
      "\n   result = client.call(\x27tool_name\x27, \x7b\x27arg\x27: \x27value\x27\x7d)" ++
      "\n2. Configure tools directly on the client:" ++
      "\n   client.configure_tools([...])  # Then use client.call()"
  else base

/-- The error message pieces of `_process_arguments` for a set argument
(`client.py`, lines 986-989); split at the word `set` so that the
`mentions "set"` requirement is visible in the text itself. -/
def set_error_head (toolName : String) : String :=
  "Invalid arguments for tool \x27" ++ toolName ++ "\x27: received a "

def set_error_suffix (args : PyVal) : String :=
  " " ++ args.render ++
    ". Common mistake: use \x27json.loads(tool_call.function.arguments)\x27 instead of \x27\x7btool_call.function.arguments\x7d\x27"

/-- `HAI._process_arguments` (`client.py`, lines 943-1006). `loads` stands
for `json.loads` of the Python standard library: it returns the parsed value
or the decode-error message. The boolean of a successful result records
whether the set-diagnostic note was printed. -/
def process_arguments (loads : String → Except String PyVal)
    (arguments : PyVal) (toolName : String) :
    Except String (List (String × PyVal) × Bool) :=
  match arguments with
  | .pyNone => .ok ([], false)
  | .pyDict d => .ok (d, false)
  | .pySet xs =>
    let setErr : Except String (List (String × PyVal) × Bool) :=
      .error (set_error_head toolName ++ "set" ++ set_error_suffix (.pySet xs))
    (match xs with
     | [x] =>
       match x with
       | .pyStr s =>
         (match loads s with
          | .ok (.pyDict d) => .ok (d, true)
          | .ok _ => setErr
          | .error _ => setErr)
       | _ => setErr
     | _ => setErr)
  | .pyStr s =>
    (match loads s with
     | .ok (.pyDict d) => .ok (d, false)
     | .ok v =>
         .error ("Invalid arguments for tool \x27" ++ toolName ++
           "\x27: JSON string must parse to a dictionary, got " ++ v.typeName)
     | .error e =>
         .error ("Invalid JSON arguments for tool \x27" ++ toolName ++ "\x27: " ++ e))
  | other =>
    .error ("Invalid arguments for tool \x27" ++ toolName ++
      "\x27: expected dict, JSON string, but got " ++ other.typeName ++
      ". Received: " ++ other.render)

/-- The resolution part of `HAI.call` (`client.py`, lines 824-896), after the
arguments have been processed: registry exact match first, then the built-in
catalog, then the MCP clients (only consulted when an effective tools
configuration exists), and otherwise the `Tool not found` diagnostic. -/
def resolve_and_call (env : ToolEnv) (toolName : String)
    (args : List (String × PyVal)) : Except String PyVal :=
  match env.registry.lookup toolName with
  | some tool => tool.run args
  | none =>
    match env.builtins.lookup toolName with
    | some tool => tool.run args
    | none =>
      match (if env.hasEffectiveConfig then mcpFind env.mcpClients toolName else none) with
      | some tool => tool.run args
      | none => .error (tool_not_found_message toolName env.hasEffectiveConfig)

/-- `HAI.call` without the tools-reconfiguration preamble: process the raw
arguments, then resolve and invoke. -/
def hai_call (env : ToolEnv) (loads : String → Except String PyVal)
    (toolName : String) (rawArgs : PyVal) : Except String PyVal :=
  match process_arguments loads rawArgs toolName with
  | .ok (args, _) => resolve_and_call env toolName args
  | .error e => .error e

/-! ## Batch tool execution (`ChatCompletions.execute_tool_calls`) -/

/-- One tool call of an assistant message as `execute_tool_calls` consumes
it: its id, whether its `function` object exposes `call_with_registry`, and
the outcome of invoking that method (a value, or the message of the
exception it raised). -/
structure ToolCallExec where
  id : String
  hasCallWithRegistry : Bool
  callResult : Except String PyVal

/-- One entry of the result list of `execute_tool_calls`. -/
structure ExecEntry where
  tool_call_id : String
  result : Option PyVal
  error : Option String

/-- `ChatCompletions.execute_tool_calls` (`client.py`, lines 472-512) on
`message.tool_calls` (`none` models a message without tool calls): one entry
per call, exceptions caught per call. -/
def execute_tool_calls (toolCalls : Option (List ToolCallExec)) : List ExecEntry :=
  match toolCalls with
  | none => []
  | some tcs =>
    tcs.map fun tc =>
      if tc.hasCallWithRegistry then
        match tc.callResult with
        | .ok v => ⟨tc.id, some v, none⟩
        | .error e => ⟨tc.id, none, some e⟩
      else
        ⟨tc.id, some (.pyDict [("error",
          .pyStr "Tool execution not implemented for this tool")]), none⟩

/-! ## The web-search built-in tool (`tools/builtin_tools/web_search.py`) -/

/-- One formatted search result. -/
structure SearchResult where
  title : String
  snippet : String
  url : String
  source : String

/-- One entry of the decoded `RelatedTopics` array: `none` models an entry
that is not a dict or has no `Text` key (it is skipped); otherwise the
optional `FirstURL` value and the `Text` value. -/
structure RelatedTopic where
  firstURL : Option String
  text : String

/-- The fields of the decoded DuckDuckGo response that `_search_duckduckgo`
reads; `none` models an absent key (`data.get(...)`). -/
structure DDGData where
  abstract : Option String
  abstractText : Option String
  abstractURL : Option String
  abstractSource : Option String
  relatedTopics : List (Option RelatedTopic)
  answer : Option String
  answerURL : Option String

/-- Python truthiness of `data.get(key)` for a string-valued key: absent or
empty is falsy. -/
def optTruthy : Option String → Bool
  | none => false
  | some s => decide (s ≠ "")

/-- `urllib.parse.quote_plus`, an external collaborator: modelled as an
opaque-but-executable identity on the query text (the embedding never
inspects the encoded form). -/
def quote_plus (s : String) : String := s

/-- Python list slicing `l[:k]` for a possibly negative `k` (the source
computes `max_results - len(results)`, which can be negative). -/
def pySliceTo (l : List α) (k : Int) : List α :=
  if k ≥ 0 then l.take k.toNat else l.take (l.length - (-k).toNat)

/-- The title computed for a related topic:
`topic.get("FirstURL", "").split("/")[-1].replace("_", " ") or "Related Topic"`. -/
def topicTitle (t : RelatedTopic) : String :=
  let raw := pyReplaceChar (Char.ofNat 95) (Char.ofNat 32)
    ((pySplitChar (Char.ofNat 47) (t.firstURL.getD "")).getLastD "")
  if raw = "" then "Related Topic" else raw

/-- The success branch of `WebSearchTool._search_duckduckgo`
(`web_search.py`, lines 96-131): the abstract entry, then the sliced
related topics, then the instant answer inserted at the front, truncated to
`max_results`. -/
def ddg_collect (query : String) (maxResults : Nat) (data : DDGData) :
    List SearchResult :=
  let r1 : List SearchResult :=
    if optTruthy data.abstract then
      [⟨data.abstractText.getD query, data.abstract.getD "",
        data.abstractURL.getD "", data.abstractSource.getD "DuckDuckGo"⟩]
    else []
  let topics := (pySliceTo data.relatedTopics
      ((maxResults : Int) - (r1.length : Int))).filterMap
    fun t =>
      t.map fun topic =>
        (⟨topicTitle topic, topic.text, topic.firstURL.getD "", "Wikipedia"⟩ :
          SearchResult)
  let r2 := r1 ++ topics
  let r3 :=
    if optTruthy data.answer ∧ r2.length < maxResults then
      ⟨"Instant Answer", data.answer.getD "", data.answerURL.getD "",
        "DuckDuckGo"⟩ :: r2
    else r2
  r3.take maxResults

/-- `WebSearchTool._search_duckduckgo` (`web_search.py`, lines 85-143).
`network` is the outcome of the `urllib.request.urlopen` + `json.loads`
step, the external HTTP collaborator: `.error e` is a raised exception with
message `e`, which the catch-all turns into the placeholder result. -/
def search_duckduckgo (query : String) (maxResults : Nat)
    (network : Except String DDGData) : List SearchResult :=
  match network with
  | .ok data => ddg_collect query maxResults data
  | .error e =>
    [⟨"Search: " ++ query,
      "Sorry, unable to perform web search at this time. Error: " ++ e,
      "https://duckduckgo.com/?q=" ++ quote_plus query,
      "DuckDuckGo"⟩]

/-- Python `"\n".join(lines)`. -/
def joinNewline : List String → String
  | [] => ""
  | [x] => x
  | x :: xs => x ++ "\n" ++ joinNewline xs

/-- The lines one result entry (numbered `i`) appends in
`WebSearchTool._format_results` (`web_search.py`, lines 163-171). -/
def result_lines (i : Nat) (r : SearchResult) : List String :=
  [toString i ++ ". **" ++ r.title ++ "**", "   " ++ r.snippet] ++
    (if r.url ≠ "" then ["   URL: " ++ r.url] else []) ++
    ["   Source: " ++ r.source, ""]

/-- `WebSearchTool._format_results` (`web_search.py`, lines 145-177): the
header line, then each numbered entry, joined with newlines. -/
def format_results (results : List SearchResult) (query : String) : String :=
  if results.isEmpty then "No results found for: " ++ query
  else
    joinNewline (("Web search results for: " ++ query ++ "\n") ::
      (results.enumFrom 1).flatMap fun p => result_lines p.1 p.2)

/-- `WebSearchTool.execute` (`web_search.py`, lines 50-83) after parameter
validation has accepted the call (the required `query` field is present;
validation lives in the external `BuiltinToolBase`). A `.error` result would
be the `ToolExecutionError` the final `except` raises; the body never
produces one because `_search_duckduckgo` catches every upstream failure
itself. -/
def web_search_execute (query : String) (maxResults : Nat)
    (network : Except String DDGData) : Except String String :=
  if pyStrip query = "" then .ok "No search query provided."
  else
    let results := search_duckduckgo query maxResults network
    if results.isEmpty then
      .ok ("No search results found for query: " ++ query)
    else
      .ok (format_results results query)

/-! ## Client tool-configuration state (`HAI.configure_tools`,
`HAI._get_effective_tools_config`, the `HAI.call` preamble) -/

/-- The tool-configuration state of a `HAI` instance: `_tools_config`,
`_last_chat_tools_config`, and the cached `_mcp_manager` (kept abstract as
an `Option Unit` — only presence matters to the claims). -/
structure HAIToolState where
  tools_config : Option ToolsInput
  last_chat_tools_config : Option ToolsInput
  mcp_manager : Option Unit

/-- `HAI.configure_tools` (`client.py`, lines 720-745): store the
configuration, clear the cached MCP manager, clear the cached chat tools. -/
def configure_tools (_s : HAIToolState) (tools : Option ToolsInput) : HAIToolState :=
  ⟨tools, none, none⟩

/-- `HAI._get_effective_tools_config` (`client.py`, lines 747-769):
instance-level configuration first, then the cached most-recent chat-turn
configuration. -/
def get_effective_tools_config (s : HAIToolState) : Option ToolsInput :=
  match s.tools_config with
  | some t => some t
  | none =>
    match s.last_chat_tools_config with
    | some t => some t
    | none => none

/-- The preamble of `HAI.call` (`client.py`, lines 812-814): a non-`None`
`tools` argument reconfigures the client via `configure_tools` before any
resolution happens. -/
def hai_call_preamble (s : HAIToolState) (tools : Option ToolsInput) : HAIToolState :=
  match tools with
  | some t => configure_tools s (some t)
  | none => s

/-! ## Message conversion (`ChatCompletions._convert_messages_to_dicts`)

The conversion is specified to copy each caller dict before replacing its
`tool_calls`; to make the no-mutation claim meaningful the caller dicts live
in an explicit heap of addressed objects, and `message.copy()` /
`msg_dict["tool_calls"] = ...` are heap operations. -/

/-- One element of a `tool_calls` list: a plain dict, or a `BaseModel`
object exposing `to_dict` (carrying the dict that call returns). -/
inductive TCEntry where
  | tcDict (d : List (String × PyVal))
  | tcModel (toDictResult : List (String × PyVal))

/-- A value stored in a message dict: an ordinary value, or a `tool_calls`
list. -/
inductive MsgVal where
  | prim (v : PyVal)
  | toolCallsVal (tcs : List TCEntry)

/-- The content of one message dict. -/
abbrev MsgDict := List (String × MsgVal)

/-- The heap of caller-visible dict objects: addressed contents plus the
next fresh address. -/
structure Heap where
  store : List (Nat × MsgDict)
  next : Nat

/-- Addresses in the store are below `next` (fresh addresses are unused). -/
def Heap.WF (h : Heap) : Prop :=
  ∀ p ∈ h.store, p.1 < h.next

/-- One element of the `messages` argument: a `BaseModel` (with the dict its
`to_dict` returns), a caller-owned dict in the heap, some other object that
`dict(message)` accepts (carrying that result), or one it rejects (carrying
the type name of the `ValueError`). -/
inductive MsgInput where
  | modelMsg (toDictResult : MsgDict)
  | dictRef (addr : Nat)
  | convMsg (d : MsgDict)
  | badMsg (tyName : String)

/-- One element of the converted output: a reference to a copied dict in the
heap, or a dict value produced outside the heap. -/
inductive MsgOut where
  | outRef (addr : Nat)
  | outVal (d : MsgDict)

/-- The per-element conversion of a `tool_calls` list (`client.py`, lines
214-219): `to_dict()` on models, pass dicts through. -/
def tcEntryConvert : TCEntry → TCEntry
  | .tcDict d => .tcDict d
  | .tcModel d => .tcDict d

/-- Python dict assignment `d[k] = v`: replace in place, else append. -/
def dictSet (d : MsgDict) (k : String) (v : MsgVal) : MsgDict :=
  if (d.lookup k).isSome then
    d.map fun p => if p.1 = k then (k, v) else p
  else d ++ [(k, v)]

/-- The store after assigning key `k` of the object at address `a`: every
entry carrying that address (exactly one under `Heap.WF`) has its dict
updated. -/
def storeSet : List (Nat × MsgDict) → Nat → String → MsgVal → List (Nat × MsgDict)
  | [], _, _, _ => []
  | p :: rest, a, k, v =>
    if p.1 = a then (p.1, dictSet p.2 k v) :: storeSet rest a k v
    else p :: storeSet rest a k v

/-- Assignment to a key of the heap object at `a`. -/
def Heap.set (h : Heap) (a : Nat) (k : String) (v : MsgVal) : Heap :=
  ⟨storeSet h.store a k v, h.next⟩

/-- One iteration of the loop in `_convert_messages_to_dicts` (`client.py`,
lines 206-228): models are converted by `to_dict`, dicts are copied (a fresh
heap object) and, when the copy has a truthy `tool_calls` list, that key of
the copy is replaced with the converted list; other objects go through
`dict(message)` or raise. A `tool_calls` key holding a non-list truthy value
would make the Python iteration raise; such ill-typed dicts are modelled as
left untouched, which likewise mutates nothing. -/
def convertOne (h : Heap) : MsgInput → Heap × Except String MsgOut
  | .modelMsg d => (h, .ok (.outVal d))
  | .dictRef a =>
    let d := (h.store.lookup a).getD []
    let copyAddr := h.next
    let h1 : Heap := ⟨(copyAddr, d) :: h.store, h.next + 1⟩
    (match d.lookup "tool_calls" with
     | some (.toolCallsVal (t :: ts)) =>
        (h1.set copyAddr "tool_calls" (.toolCallsVal ((t :: ts).map tcEntryConvert)),
         .ok (.outRef copyAddr))
     | _ => (h1, .ok (.outRef copyAddr)))
  | .convMsg d => (h, .ok (.outVal d))
  | .badMsg ty =>
    (h, .error ("Message must be a dict or BaseModel object, got <class \x27" ++
      ty ++ "\x27>"))

/-- `ChatCompletions._convert_messages_to_dicts` (`client.py`, lines
203-229), with the heap threaded through. -/
def convert_messages_to_dicts (h : Heap) :
    List MsgInput → Heap × Except String (List MsgOut)
  | [] => (h, .ok [])
  | m :: ms =>
    match convertOne h m with
    | (h1, .error e) => (h1, .error e)
    | (h1, .ok o) =>
      match convert_messages_to_dicts h1 ms with
      | (h2, .error e) => (h2, .error e)
      | (h2, .ok os) => (h2, .ok (o :: os))

/-! ## Streaming reasoning-block filter

Modelled from the spec: the client-side streaming decoder with
`hide_think` filtering described in section 4.6 of the specification is not
part of the python sources handed to this development — the shipped
`ChatCompletions._handle_stream_response` (`client.py`, lines 620-680)
decodes chunks without any markup removal and `create` forwards
`hideThink` to the server instead. The state machine below follows the
spec text: states PLAIN / IN_THINK / IN_SER, character-level scanning, a
pending buffer holding at most a strict prefix of a recognized tag, and
whitespace normalization on PLAIN output. -/

/-- Modelled from the spec: the mutually exclusive decoder states of the
missing streaming filter. -/
inductive FilterMode where
  | plain
  | inThink
  | inSer

/-- Modelled from the spec: the whitespace-normalization part of the missing
filter state — whether a non-whitespace character was emitted yet, the
pending whitespace run, the no-extra-space flag set when leaving a filtered
block, and the output accumulated so far. -/
structure WsState where
  started : Bool
  wsRun : List Char
  suppressSpace : Bool
  out : List Char

/-- Modelled from the spec: collapse of a whitespace run — three or more
newlines become exactly two, a run of two or more non-newline whitespace
characters becomes one space. -/
def normalizeRun (run : List Char) : List Char :=
  let n := run.count (Char.ofNat 10)
  if n ≥ 1 then List.replicate (min n 2) (Char.ofNat 10)
  else if run.length ≥ 2 then [Char.ofNat 32]
  else run

/-- Modelled from the spec: the whitespace run flushed before a visible
character — suppressed when it would amount to a lone separating space right
after a filtered block. -/
def flushWs (w : WsState) : List Char :=
  if w.suppressSpace && (normalizeRun w.wsRun).all (fun c => c = Char.ofNat 32) then []
  else normalizeRun w.wsRun

/-- Modelled from the spec: emission of one PLAIN-state character — leading
whitespace of the whole stream is dropped, later whitespace is buffered into
the current run, and a visible character flushes the normalized run before
itself. -/
def pushPlainChar (w : WsState) (c : Char) : WsState :=
  if c.isWhitespace then
    if w.started then { w with wsRun := w.wsRun ++ [c] } else w
  else
    ⟨true, [], false, w.out ++ flushWs w ++ [c]⟩

/-- Modelled from the spec: leaving `IN_THINK` / `IN_SER` records that the
immediately following whitespace must not produce an extra separating
space. -/
def closeBlockWs (w : WsState) : WsState :=
  { w with suppressSpace := true }

def thinkOpenT : List Char := "<think>".toList
def serOpenT : List Char := "<ser>".toList
def thinkCloseT : List Char := "</think>".toList
def serCloseT : List Char := "</ser>".toList

/-- Is `p` a strict prefix of one of the given tags? Such a pending buffer
is ambiguous and must wait for more input. -/
def strictPrefixOfAny (p : List Char) (tags : List (List Char)) : Bool :=
  tags.any fun t => p.isPrefixOf t && decide (p.length < t.length)

/-- Modelled from the spec: the whole state of the missing streaming filter —
decoder state, whitespace normalization state, and the ambiguous pending
buffer. -/
structure FilterSt where
  mode : FilterMode
  ws : WsState
  pending : List Char

/-- Modelled from the spec: resolve the pending text after one character was
appended — a completed tag switches state and is consumed silently, a strict
tag prefix stays buffered, and anything else resolves its first character
(emitted in PLAIN, discarded inside a block) before rescanning the rest. -/
def settle : FilterMode → WsState → List Char → FilterSt
  | .plain, w, p =>
    if p = thinkOpenT then ⟨.inThink, w, []⟩
    else if p = serOpenT then ⟨.inSer, w, []⟩
    else if strictPrefixOfAny p [thinkOpenT, serOpenT] then ⟨.plain, w, p⟩
    else
      match p with
      | [] => ⟨.plain, w, []⟩
      | c :: rest => settle .plain (pushPlainChar w c) rest
  | .inThink, w, p =>
    if p = thinkCloseT then ⟨.plain, closeBlockWs w, []⟩
    else if strictPrefixOfAny p [thinkCloseT] then ⟨.inThink, w, p⟩
    else
      match p with
      | [] => ⟨.inThink, w, []⟩
      | _ :: rest => settle .inThink w rest
  | .inSer, w, p =>
    if p = serCloseT then ⟨.plain, closeBlockWs w, []⟩
    else if strictPrefixOfAny p [serCloseT] then ⟨.inSer, w, p⟩
    else
      match p with
      | [] => ⟨.inSer, w, []⟩
      | _ :: rest => settle .inSer w rest

/-- Modelled from the spec: feed one incoming character into the filter. -/
def feedChar (st : FilterSt) (c : Char) : FilterSt :=
  settle st.mode st.ws (st.pending ++ [c])

/-- Modelled from the spec: feed one network chunk, character by
character. -/
def feedChunk (st : FilterSt) (chunk : List Char) : FilterSt :=
  chunk.foldl feedChar st

/-- Modelled from the spec: the fresh per-stream filter state. -/
def initFilterSt : FilterSt :=
  ⟨.plain, ⟨false, [], false, []⟩, []⟩

/-- Modelled from the spec: at stream end a PLAIN-state ambiguous buffer is
flushed as plain content (it was not a tag; inside a block the buffered
characters belong to the discarded block), followed by the final whitespace
run. -/
def finishFilter (st : FilterSt) : List Char :=
  let w :=
    match st.mode with
    | .plain => st.pending.foldl pushPlainChar st.ws
    | _ => st.ws
  w.out ++ flushWs w

/-- Modelled from the spec: the concatenated content the filtered stream
delivers for a given chunking of the incoming content. -/
def hide_think_filter (chunks : List (List Char)) : List Char :=
  finishFilter (chunks.foldl feedChunk initFilterSt)

/-! ## Theorems -/

/-- Feeding chunks one after the other is the same as feeding their
concatenation: the filter state is advanced character by character either
way. -/
theorem foldl_feedChunk_eq_join (chunks : List (List Char)) (st : FilterSt) :
    chunks.foldl feedChunk st = feedChunk st chunks.flatten := by
  induction chunks generalizing st with
  | nil => rfl
  | cons c cs ih =>
    rw [List.foldl_cons, ih, List.flatten_cons]
    simp [feedChunk, List.foldl_append]

/-- C1: for every way of splitting a stream whose concatenated delta content
is `<think>secret</think>visible` into chunks — including splits in the
middle of a tag — the reasoning-filtered output delivered to the caller has
concatenated content `visible`; nothing inside the think block and no
partial tag fragment is ever emitted. -/
theorem c1_hide_think_every_split (chunks : List (List Char))
    (h : chunks.flatten = "<think>secret</think>visible".toList) :
    hide_think_filter chunks = "visible".toList := by
  unfold hide_think_filter
  rw [foldl_feedChunk_eq_join, h]
  decide

/-- Witness for C1 at a concrete three-chunk split that cuts both tags in
the middle. -/
theorem c1_hide_think_every_split_witness :
    hide_think_filter ["<thi".toList, "nk>secret</th".toList, "ink>visible".toList]
      = "visible".toList :=
  c1_hide_think_every_split _ (by decide)

/-- C3 counterexample: for a tools input of unrecognized top-level shape
(an `int`), `ensure_openai_format` does raise an error naming the type, but
`ChatCompletions._convert_tools_parameter` — the caller of tool
normalization — swallows it into a warning plus a fallback result (`None`
for a non-list input) instead of letting it propagate. -/
theorem c3_counterexample :
    ensure_openai_format (fun _ => []) (.otherInput "int") =
      .error (unsupported_tools_message (.otherInput "int")) ∧
    convert_tools_parameter (fun _ => []) (.otherInput "int") =
      (none, some (warn_for_error (unsupported_tools_message (.otherInput "int")))) := by
  exact ⟨rfl, rfl⟩

/-- C3 amended: for every tools input of unrecognized top-level shape,
`ensure_openai_format` fails with an error naming the offending type, and
`_convert_tools_parameter` catches that error, emits a warning, and returns
the legacy fallback (`None` for a non-list input) — the error does not
propagate beyond the normalizer. -/
theorem c3_amended (g : Option (List String) → List Fn) (ty : String) :
    ensure_openai_format g (.otherInput ty) =
      .error (unsupported_tools_message (.otherInput ty)) ∧
    strInfix ty (unsupported_tools_message (.otherInput ty)) ∧
    (convert_tools_parameter g (.otherInput ty)).1 = none ∧
    ((convert_tools_parameter g (.otherInput ty)).2).isSome := by
  refine ⟨rfl, ?_, ?_, ?_⟩
  · simp only [strInfix, unsupported_tools_message, ToolsInput.typeName,
      decide_eq_true_eq, String.toList]
    refine ⟨"Unsupported tools format: ".data ++ "<class \x27".data,
      "\x27>".data ++ ". Expected None, str, List[Dict], or List[Fn].".data, ?_⟩
    simp [String.data_append]
  · simp [convert_tools_parameter, ensure_openai_format, legacy_fallback]
  · simp [convert_tools_parameter, ensure_openai_format]

/-- C6: a list whose first element is a dict containing a `type` key passes
through `ensure_openai_format` unchanged, so normalizing a second time
yields the same result (idempotence on already-normalized input). -/
theorem c6_wire_format_idempotent (g : Option (List String) → List Fn)
    (d : List (String × PyVal)) (ds : List ToolItem)
    (h : (d.lookup "type").isSome) :
    ensure_openai_format g (.listInput (.dictItem d :: ds)) =
      .ok (some (.dictItem d :: ds)) ∧
    (match ensure_openai_format g (.listInput (.dictItem d :: ds)) with
     | .ok (some items) => ensure_openai_format g (.listInput items)
     | r => r) = ensure_openai_format g (.listInput (.dictItem d :: ds)) := by
  have h1 : ensure_openai_format g (.listInput (.dictItem d :: ds)) =
      .ok (some (.dictItem d :: ds)) := by
    simp [ensure_openai_format, h]
  exact ⟨h1, by simp [h1]⟩

/-- Witness for C6 at a concrete one-element wire-format list. -/
theorem c6_wire_format_idempotent_witness :
    ensure_openai_format (fun _ => [])
        (.listInput [.dictItem [("type", .pyStr "function")]]) =
      .ok (some [.dictItem [("type", .pyStr "function")]]) :=
  (c6_wire_format_idempotent (fun _ => []) [("type", .pyStr "function")] []
    (by decide)).1

/-- C5: when a tool name has an exact match in the global registry, `HAI.call`
invokes the registry entry — even if the built-in catalog also has that
name; the built-in catalog and the MCP clients are consulted only after the
registry (respectively both earlier stages) miss. -/
theorem c5_registry_wins (env : ToolEnv) (name : String)
    (args : List (String × PyVal)) (fnR fnB : CallableTool)
    (hr : env.registry.lookup name = some fnR)
    (hb : env.builtins.lookup name = some fnB) :
    resolve_and_call env name args = fnR.run args := by
  simp [resolve_and_call, hr]

/-- Witness for C5: a name registered both in the registry and the built-in
catalog resolves to the registry entry. -/
theorem c5_registry_wins_witness :
    resolve_and_call
      ⟨[("t", ⟨"t", fun _ => .ok (.pyStr "registry")⟩)],
       [("t", ⟨"t", fun _ => .ok (.pyStr "builtin")⟩)], [], false⟩
      "t" [] = .ok (.pyStr "registry") :=
  c5_registry_wins _ "t" [] ⟨"t", fun _ => .ok (.pyStr "registry")⟩
    ⟨"t", fun _ => .ok (.pyStr "builtin")⟩ rfl rfl

/-- C10: `HAI.call` with a non-`None` `tools` argument durably reconfigures
the client: the instance-level configuration becomes that argument, the
cached chat-turn tools and the cached MCP manager are cleared, and every
later call without an explicit tools argument resolves its effective
configuration to the new value. -/
theorem c10_call_reconfigures (s : HAIToolState) (t : ToolsInput) :
    (hai_call_preamble s (some t)).tools_config = some t ∧
    (hai_call_preamble s (some t)).last_chat_tools_config = none ∧
    (hai_call_preamble s (some t)).mcp_manager = none ∧
    get_effective_tools_config (hai_call_preamble s (some t)) = some t ∧
    get_effective_tools_config
      (hai_call_preamble (hai_call_preamble s (some t)) none) = some t := by
  simp [hai_call_preamble, configure_tools, get_effective_tools_config]

/-- C4: for a registered tool name, dispatching with a JSON-encoded object
string behaves identically to dispatching with the already-parsed mapping; a
single-element set holding that JSON string also behaves identically (with
the diagnostic note recorded), and a multi-element set fails with an error
that mentions `set`. -/
theorem c4_argument_coercion (env : ToolEnv)
    (loads : String → Except String PyVal) (t s : String)
    (d : List (String × PyVal)) (hload : loads s = .ok (.pyDict d)) :
    process_arguments loads (.pyStr s) t = .ok (d, false) ∧
    process_arguments loads (.pyDict d) t = .ok (d, false) ∧
    process_arguments loads (.pySet [.pyStr s]) t = .ok (d, true) ∧
    hai_call env loads t (.pyStr s) = hai_call env loads t (.pyDict d) ∧
    hai_call env loads t (.pySet [.pyStr s]) = hai_call env loads t (.pyDict d) ∧
    ∀ x y ys, process_arguments loads (.pySet (x :: y :: ys)) t =
      .error (set_error_head t ++ "set" ++ set_error_suffix (.pySet (x :: y :: ys))) := by
  refine ⟨?_, rfl, ?_, ?_, ?_, ?_⟩
  · simp [process_arguments, hload]
  · simp [process_arguments, hload]
  · simp [hai_call, process_arguments, hload]
  · simp [hai_call, process_arguments, hload]
  · intro x y ys
    simp [process_arguments]

/-- Witness for C4: a concrete single-element set containing a JSON object
string is parsed to the same dict as the string itself. -/
theorem c4_argument_coercion_witness :
    process_arguments (fun _ => .ok (.pyDict [("x", .pyInt 1)]))
        (.pySet [.pyStr "\x7b\"x\": 1\x7d"]) "t" = .ok ([("x", .pyInt 1)], true) ∧
    process_arguments (fun _ => .ok (.pyDict [("x", .pyInt 1)]))
        (.pyStr "\x7b\"x\": 1\x7d") "t" = .ok ([("x", .pyInt 1)], false) :=
  ⟨(c4_argument_coercion ⟨[], [], [], false⟩
      (fun _ => .ok (.pyDict [("x", .pyInt 1)])) "t" "\x7b\"x\": 1\x7d"
      [("x", .pyInt 1)] rfl).2.2.1,
   (c4_argument_coercion ⟨[], [], [], false⟩
      (fun _ => .ok (.pyDict [("x", .pyInt 1)])) "t" "\x7b\"x\": 1\x7d"
      [("x", .pyInt 1)] rfl).1⟩

/-- C7: `execute_tool_calls` returns exactly one entry per tool call, in
order; a call whose execution raises is reported as
`{tool_call_id, result: none, error: message}` without aborting the batch,
and every other call still gets its own entry carrying its id. -/
theorem c7_per_call_results (tcs : List ToolCallExec) (i : Nat)
    (tc : ToolCallExec) (e : String) (hi : tcs[i]? = some tc)
    (hcr : tc.hasCallWithRegistry = true) (herr : tc.callResult = .error e) :
    (execute_tool_calls (some tcs)).length = tcs.length ∧
    (execute_tool_calls (some tcs))[i]? = some ⟨tc.id, none, some e⟩ ∧
    ∀ (j : Nat) (tcj : ToolCallExec), tcs[j]? = some tcj →
      ((execute_tool_calls (some tcs))[j]?).map ExecEntry.tool_call_id
        = some tcj.id := by
  refine ⟨by simp [execute_tool_calls], ?_, ?_⟩
  · simp [execute_tool_calls, List.getElem?_map, hi, hcr, herr]
  · intro j tcj hj
    simp only [execute_tool_calls, List.getElem?_map, hj, Option.map_some]
    cases hb : tcj.hasCallWithRegistry <;> cases hres : tcj.callResult <;>
      simp [hb, hres]

/-- Witness for C7: a two-call batch where the second call raises still
reports both calls, the failing one with a null result and the error
message. -/
theorem c7_per_call_results_witness :
    (execute_tool_calls (some [⟨"id1", true, .ok (.pyInt 5)⟩,
        ⟨"id2", true, .error "boom"⟩]))[1]? = some ⟨"id2", none, some "boom"⟩ ∧
    (execute_tool_calls (some [⟨"id1", true, .ok (.pyInt 5)⟩,
        ⟨"id2", true, .error "boom"⟩])).length = 2 :=
  ⟨(c7_per_call_results [⟨"id1", true, .ok (.pyInt 5)⟩,
      ⟨"id2", true, .error "boom"⟩] 1 ⟨"id2", true, .error "boom"⟩ "boom"
      rfl rfl rfl).2.1,
   (c7_per_call_results [⟨"id1", true, .ok (.pyInt 5)⟩,
      ⟨"id2", true, .error "boom"⟩] 1 ⟨"id2", true, .error "boom"⟩ "boom"
      rfl rfl rfl).1⟩

/-- C2 counterexample: with an empty tools list the normalizer returns `[]`
(a non-`None` empty result), and the request body of `create` still contains
a `tools` key — the `if v is not None` filter keeps the empty list — while
`tool_choice` is dropped. -/
theorem c2_counterexample :
    ensure_openai_format (fun _ => []) (.listInput []) = .ok (some []) ∧
    "tools" ∈ bodyKeys (create_json_data (fun _ => []) "m" (.pyList []) false
      CreateParams.allNone (.listInput []) (some (.pyStr "auto")) false) ∧
    "tool_choice" ∉ bodyKeys (create_json_data (fun _ => []) "m" (.pyList []) false
      CreateParams.allNone (.listInput []) (some (.pyStr "auto")) false) := by
  refine ⟨rfl, ?_, ?_⟩ <;> decide

set_option maxHeartbeats 2000000 in
/-- C2 amended: the outgoing body contains `tools` iff tool normalization
produced a non-`None` result (the empty list included, since only `None`
values are filtered out of `optional_params`); `tool_choice` is present iff
the normalized tools value is truthy (a non-empty list) and `tool_choice`
itself is non-`None` — in particular only when `tools` is present. -/
theorem c2_amended (g : Option (List String) → List Fn) (model : String)
    (messages : PyVal) (stream : Bool) (p : CreateParams) (tools : ToolsInput)
    (tool_choice : Option PyVal) (hide_think : Bool) :
    ("tools" ∈ bodyKeys (create_json_data g model messages stream p tools tool_choice hide_think)
      ↔ ((convert_tools_parameter g tools).1).isSome) ∧
    ("tool_choice" ∈ bodyKeys (create_json_data g model messages stream p tools tool_choice hide_think)
      ↔ (toolsTruthy (convert_tools_parameter g tools).1 ∧ tool_choice.isSome)) := by
  cases hc : (convert_tools_parameter g tools).1 with
  | none => cases tool_choice <;> simp [create_json_data, bodyKeys, toolsTruthy, hc]
  | some l => cases l <;> cases tool_choice <;>
      simp [create_json_data, bodyKeys, toolsTruthy, hc]

/-- C8: for every non-blank query, a failing upstream web-search request
(`network = .error e`) makes `WebSearchTool.execute` return a formatted
result string built from the placeholder entry whose snippet names the
error — it does not raise — and the error text occurs verbatim inside the
returned string. -/
theorem c8_web_search_degrades (q : String) (maxR : Nat) (e : String)
    (h : pyStrip q ≠ "") :
    web_search_execute q maxR (.error e) =
      .ok (format_results
        [⟨"Search: " ++ q,
          "Sorry, unable to perform web search at this time. Error: " ++ e,
          "https://duckduckgo.com/?q=" ++ quote_plus q, "DuckDuckGo"⟩] q) ∧
    e.data <:+: (format_results
        [⟨"Search: " ++ q,
          "Sorry, unable to perform web search at this time. Error: " ++ e,
          "https://duckduckgo.com/?q=" ++ quote_plus q, "DuckDuckGo"⟩] q).data := by
  have hurl : ("https://duckduckgo.com/?q=" ++ quote_plus q) ≠ "" := by
    intro hcon
    have h2 := congrArg String.length hcon
    simp [String.length_append, quote_plus] at h2
    exact absurd h2.1 (by decide)
  constructor
  · simp [web_search_execute, search_duckduckgo, h]
  · refine ⟨"Web search results for: ".data ++ q.data ++ "\n".data ++ "\n".data ++
      (toString 1).data ++ ". **".data ++ "Search: ".data ++ q.data ++ "**".data ++
      "\n".data ++ "   ".data ++
      "Sorry, unable to perform web search at this time. Error: ".data,
      "\n".data ++ "   URL: ".data ++ "https://duckduckgo.com/?q=".data ++ q.data ++
      "\n".data ++ "   Source: ".data ++ "DuckDuckGo".data ++ "\n".data ++ "".data, ?_⟩
    simp [format_results, joinNewline, result_lines, hurl, String.data_append,
      quote_plus, List.append_assoc]

/-- Witness for C8 at a concrete query and error. -/
theorem c8_web_search_degrades_witness :
    web_search_execute "weather" 5 (.error "timeout") =
      .ok (format_results
        [⟨"Search: " ++ "weather",
          "Sorry, unable to perform web search at this time. Error: " ++ "timeout",
          "https://duckduckgo.com/?q=" ++ quote_plus "weather", "DuckDuckGo"⟩]
        "weather") :=
  (c8_web_search_degrades "weather" 5 "timeout" (by decide)).1

/-- Looking up an address different from the assigned one is unaffected by
`storeSet`. -/
theorem lookup_storeSet_ne (l : List (Nat × MsgDict)) (t : Nat) (k : String)
    (v : MsgVal) (a : Nat) (hne : a ≠ t) :
    (storeSet l t k v).lookup a = l.lookup a := by
  induction l with
  | nil => rfl
  | cons p rest ih =>
    obtain ⟨k0, d0⟩ := p
    by_cases hp : k0 = t
    · have hne2 : a ≠ k0 := by rw [hp]; exact hne
      simp [storeSet, hp, List.lookup_cons, beq_false_of_ne hne2,
        beq_false_of_ne hne, ih]
    · by_cases ha : a = k0
      · simp [storeSet, hp, List.lookup_cons, ha]
      · simp [storeSet, hp, List.lookup_cons, beq_false_of_ne ha, ih]

/-- `storeSet` preserves the addresses of the store. -/
theorem storeSet_keys (l : List (Nat × MsgDict)) (t : Nat) (k : String)
    (v : MsgVal) : (storeSet l t k v).map Prod.fst = l.map Prod.fst := by
  induction l with
  | nil => rfl
  | cons q rest ih => by_cases hk : q.1 = t <;> simp [storeSet, hk, ih]

/-- A successful lookup address is below the bound of the store keys. -/
theorem lookup_some_key_lt (l : List (Nat × MsgDict)) (n a : Nat) (d : MsgDict)
    (hwf : ∀ p ∈ l, p.1 < n) (hl : l.lookup a = some d) : a < n := by
  induction l with
  | nil => simp [List.lookup] at hl
  | cons p rest ih =>
    obtain ⟨k0, d0⟩ := p
    by_cases ha : a = k0
    · exact ha ▸ hwf (k0, d0) (List.mem_cons_self _ rest)
    · refine ih (fun q hq => hwf q (List.mem_cons_of_mem _ hq)) ?_
      simpa [List.lookup_cons, beq_false_of_ne ha] using hl

/-- `convertOne` only allocates fresh addresses and mutates a fresh copy:
well-formedness is preserved, the allocation counter grows, and every
previously allocated address keeps its content. -/
theorem convertOne_preserves (h : Heap) (m : MsgInput) (hwf : h.WF) :
    (convertOne h m).1.WF ∧ h.next ≤ (convertOne h m).1.next ∧
    ∀ a, a < h.next →
      (convertOne h m).1.store.lookup a = h.store.lookup a := by
  cases m with
  | modelMsg d => exact ⟨hwf, le_refl _, fun a _ => rfl⟩
  | convMsg d => exact ⟨hwf, le_refl _, fun a _ => rfl⟩
  | badMsg ty => exact ⟨hwf, le_refl _, fun a _ => rfl⟩
  | dictRef ad =>
    have hwf1 : (Heap.mk ((h.next, (h.store.lookup ad).getD []) :: h.store)
        (h.next + 1)).WF := by
      intro p hp
      rcases List.mem_cons.mp hp with h1 | h1
      · rw [h1]; exact Nat.lt_succ_self _
      · exact Nat.lt_succ_of_lt (hwf p h1)
    simp only [convertOne]
    split
    · refine ⟨?_, Nat.le_succ _, ?_⟩
      · intro p hp
        simp only [Heap.set] at hp
        have hmem : p.1 ∈ (storeSet ((h.next, (h.store.lookup ad).getD []) ::
            h.store) h.next "tool_calls" _).map Prod.fst :=
          List.mem_map_of_mem Prod.fst hp
        rw [storeSet_keys] at hmem
        obtain ⟨q, hq, hq1⟩ := List.mem_map.mp hmem
        rw [← hq1]
        exact hwf1 q hq
      · intro a ha
        have hne : a ≠ h.next := by omega
        simp only [Heap.set]
        rw [lookup_storeSet_ne _ _ _ _ _ hne]
        simp [List.lookup_cons, beq_false_of_ne hne]
    · refine ⟨hwf1, Nat.le_succ _, ?_⟩
      intro a ha
      have hne : a ≠ h.next := by omega
      simp [List.lookup_cons, beq_false_of_ne hne]

/-- The whole conversion run preserves well-formedness, grows the allocation
counter, and keeps every previously allocated address unchanged. -/
theorem convert_messages_preserves (msgs : List MsgInput) (h : Heap)
    (hwf : h.WF) :
    (convert_messages_to_dicts h msgs).1.WF ∧
    h.next ≤ (convert_messages_to_dicts h msgs).1.next ∧
    ∀ a, a < h.next →
      (convert_messages_to_dicts h msgs).1.store.lookup a =
        h.store.lookup a := by
  induction msgs generalizing h with
  | nil => exact ⟨hwf, le_refl _, fun a _ => rfl⟩
  | cons m ms ih =>
    obtain ⟨hwf1, hle1, hpres1⟩ := convertOne_preserves h m hwf
    simp only [convert_messages_to_dicts]
    cases hres : convertOne h m with
    | mk h1 r =>
      rw [hres] at hwf1 hle1 hpres1
      cases r with
      | error e => exact ⟨hwf1, hle1, hpres1⟩
      | ok o =>
        dsimp only
        obtain ⟨hwf2, hle2, hpres2⟩ := ih h1 hwf1
        cases hres2 : convert_messages_to_dicts h1 ms with
        | mk h2 r2 =>
          rw [hres2] at hwf2 hle2 hpres2
          cases r2 <;>
            exact ⟨hwf2, le_trans hle1 hle2, fun a ha =>
              (hpres2 a (lt_of_lt_of_le ha hle1)).trans (hpres1 a ha)⟩

/-- C9: converting a messages list never mutates the caller data — each
caller dict is copied before its `tool_calls` key is replaced, so after
conversion every originally allocated dict, its `tool_calls` value
included, still holds exactly its original content. -/
theorem c9_convert_messages_no_mutation (h : Heap) (msgs : List MsgInput)
    (hwf : h.WF) (a : Nat) (d : MsgDict)
    (hl : h.store.lookup a = some d) :
    ((convert_messages_to_dicts h msgs).1).store.lookup a = some d := by
  obtain ⟨-, -, hpres⟩ := convert_messages_preserves msgs h hwf
  have ha : a < h.next := lookup_some_key_lt h.store h.next a d hwf hl
  rw [hpres a ha, hl]

/-- Witness for C9: a concrete message dict carrying a model-valued
`tool_calls` entry is unchanged after conversion. -/
theorem c9_convert_messages_no_mutation_witness :
    ((convert_messages_to_dicts
        ⟨[(0, [("role", .prim (.pyStr "user")),
               ("tool_calls", .toolCallsVal [.tcModel [("id", .pyStr "1")]])])], 1⟩
        [.dictRef 0]).1).store.lookup 0 =
      some [("role", .prim (.pyStr "user")),
            ("tool_calls", .toolCallsVal [.tcModel [("id", .pyStr "1")]])] :=
  c9_convert_messages_no_mutation _ [.dictRef 0]
    (by intro p hp
        rw [List.mem_singleton] at hp
        rw [hp]
        exact Nat.lt_succ_self 0)
    0 _ rfl

end HelpingAI
